import Mathlib

/-!
Shallow embedding of `packages/auth-construct/src/types.ts` and of the
api-extractor entry file of the amplify-backend excerpt.

Each TypeScript object type is modelled as a Lean structure whose fields are
all `Option`-typed (a JavaScript object property may be present or absent),
together with a Bool-valued membership predicate translated from the type
declaration: a required property `f : T` contributes `f.isSome` (and validity
of the contained value), an optional property `f?: T` contributes validity
only when the property is present.  A TypeScript union type is modelled as an
inductive carrier covering the members of the union, with the membership
predicate carving out exactly the values the union admits (e.g. the literal
type `true` admits the boolean `true` but not `false`).  An intersection
type `A & B` is the conjunction of the two membership predicates.
-/

namespace AmplifyAuth

/-- Checks an optional property: absent is fine, present must be valid. -/
def optValid {α : Type} (f : α → Bool) : Option α → Bool
  | none => true
  | some x => f x

/-! ### Opaque external SDK types

These types come from `aws-cdk-lib` / `@aws-amplify/plugin-types`, which are
third-party dependencies outside this repository.  The source file only ever
mentions them as whole field types (or, for the identity-provider props,
removes the `userPool` key), so each is modelled as an opaque token. -/

/-- External CDK type `IUserPool`, modelled opaquely. -/
structure UserPool where
  poolRef : String
deriving DecidableEq

/-- External CDK type `SecretValue`, modelled opaquely. -/
structure SecretValue where
  secretRef : String
deriving DecidableEq

/-- External CDK type `StandardAttributes`, modelled opaquely. -/
structure StandardAttributes where
  attrs : String
deriving DecidableEq

/-- External CDK enum `cognito.AccountRecovery`, modelled opaquely. -/
structure AccountRecovery where
  recovery : String
deriving DecidableEq

/-- External type `BackendOutputStorageStrategy<AuthOutput>`, modelled opaquely. -/
structure BackendOutputStorageStrategy where
  strategyRef : String
deriving DecidableEq

/-- External CDK type `cognito.OAuthScope`, modelled opaquely. -/
structure OAuthScope where
  scopeName : String
deriving DecidableEq

/-! ### Email and phone login types -/

/-- Carrier of the object type `EmailLoginSettings`:
`verificationEmailStyle?: 'CODE' | 'LINK'`,
`verificationEmailBody?: (codeOrLink: string) => string`,
`verificationEmailSubject?: string`. -/
structure EmailLoginSettings where
  verificationEmailStyle : Option String
  verificationEmailBody : Option (String → String)
  verificationEmailSubject : Option String

/-- Membership in `EmailLoginSettings`: every property is optional; the
style, when present, must be the literal `'CODE'` or `'LINK'`. -/
def isEmailLoginSettings (s : EmailLoginSettings) : Bool :=
  optValid (fun v => v == "CODE" || v == "LINK") s.verificationEmailStyle

/-- Carrier of the union `EmailLogin = true | EmailLoginSettings`: a value
drawn from the ambient space of booleans and settings objects. -/
inductive EmailLogin where
  | asBool (b : Bool) : EmailLogin
  | asSettings (s : EmailLoginSettings) : EmailLogin

/-- Membership in `EmailLogin = true | EmailLoginSettings`: the only boolean
the union admits is the literal `true`. -/
def isEmailLogin : EmailLogin → Bool
  | .asBool b => b == true
  | .asSettings s => isEmailLoginSettings s

/-- Carrier of the settings-object member of `PhoneNumberLogin`:
`verificationMessage?: (code: string) => string`. -/
structure PhoneNumberLoginSettings where
  verificationMessage : Option (String → String)

/-- Membership in the settings-object member of `PhoneNumberLogin`: its only
property is optional, so every object qualifies. -/
def isPhoneNumberLoginSettings (_s : PhoneNumberLoginSettings) : Bool :=
  true

/-- Carrier of the union `PhoneNumberLogin = true | { verificationMessage? }`. -/
inductive PhoneNumberLogin where
  | asBool (b : Bool) : PhoneNumberLogin
  | asSettings (s : PhoneNumberLoginSettings) : PhoneNumberLogin

/-- Membership in `PhoneNumberLogin`: the only boolean the union admits is
the literal `true`. -/
def isPhoneNumberLogin : PhoneNumberLogin → Bool
  | .asBool b => b == true
  | .asSettings s => isPhoneNumberLoginSettings s

/-- Carrier of `BasicLoginOptions`: an object with possibly-absent `email`
and `phone` properties. -/
structure BasicLoginOptions where
  email : Option EmailLogin
  phone : Option PhoneNumberLogin

/-- Membership in the union
`BasicLoginOptions = { email: EmailLogin; phone?: PhoneNumberLogin }
                   | { email?: EmailLogin; phone: PhoneNumberLogin }`:
the first branch requires `email`, the second requires `phone`; in both
branches any present property must hold a valid value. -/
def isBasicLoginOptions (v : BasicLoginOptions) : Bool :=
  (v.email.isSome && optValid isEmailLogin v.email
      && optValid isPhoneNumberLogin v.phone)
  || (v.phone.isSome && optValid isEmailLogin v.email
      && optValid isPhoneNumberLogin v.phone)

/-! ### MFA types -/

/-- Carrier of the settings-object member of `MFASettings.sms`:
`smsMessage: (code: string) => string` (a required property). -/
structure SmsMfaSettings where
  smsMessage : Option (String → String)

/-- Membership in the sms settings object: `smsMessage` is required. -/
def isSmsMfaSettings (s : SmsMfaSettings) : Bool :=
  s.smsMessage.isSome

/-- Carrier of the union `MFASettings.sms = boolean | { smsMessage }`. -/
inductive SmsMfaValue where
  | asBool (b : Bool) : SmsMfaValue
  | asSettings (s : SmsMfaSettings) : SmsMfaValue

/-- Membership in `boolean | { smsMessage }`: both booleans are admitted;
a settings object must carry `smsMessage`. -/
def isSmsMfaValue : SmsMfaValue → Bool
  | .asBool _ => true
  | .asSettings s => isSmsMfaSettings s

/-- Carrier of `MFASettings`: `totp: boolean` and
`sms: boolean | { smsMessage }`, both required properties. -/
structure MFASettings where
  totp : Option Bool
  sms : Option SmsMfaValue

/-- Membership in `MFASettings`: both `totp` and `sms` are required, and a
present `sms` value must itself belong to `boolean | { smsMessage }`. -/
def isMFASettings (m : MFASettings) : Bool :=
  m.totp.isSome && m.sms.isSome && optValid isSmsMfaValue m.sms

/-- Carrier of the intersection
`MFA = { enforcementType: 'OFF' | 'OPTIONAL' | 'REQUIRED' } & MFASettings`. -/
structure MFA where
  enforcementType : Option String
  totp : Option Bool
  sms : Option SmsMfaValue

/-- Projection of an `MFA` object onto its `MFASettings` part. -/
def MFA.settings (m : MFA) : MFASettings :=
  ⟨m.totp, m.sms⟩

/-- Membership in `MFA`: the intersection of the enforcement-type record
(whose required `enforcementType` property must be one of the three string
literals) and `MFASettings`. -/
def isMFA (m : MFA) : Bool :=
  m.enforcementType.isSome
    && optValid (fun v => v == "OFF" || v == "OPTIONAL" || v == "REQUIRED")
      m.enforcementType
    && isMFASettings m.settings

/-! ### External identity provider types

The six `cognito.UserPoolIdentityProvider…Props` SDK types are external to
this repository; the source manipulates only the keys it names in `Omit`
(`userPool`, and for Google also `clientSecret` / `clientSecretValue`), so
each SDK props type is modelled as those named keys plus one opaque
component standing for all of its remaining properties. -/

/-- Opaque remaining properties of the Google SDK props type. -/
structure GoogleProviderRest where
  googleRest : String
deriving DecidableEq

/-- Opaque remaining properties of the Apple SDK props type. -/
structure AppleProviderRest where
  appleRest : String
deriving DecidableEq

/-- Opaque remaining properties of the Amazon SDK props type. -/
structure AmazonProviderRest where
  amazonRest : String
deriving DecidableEq

/-- Opaque remaining properties of the Facebook SDK props type. -/
structure FacebookProviderRest where
  facebookRest : String
deriving DecidableEq

/-- Opaque remaining properties of the OIDC SDK props type. -/
structure OidcProviderRest where
  oidcRest : String
deriving DecidableEq

/-- Opaque remaining properties of the SAML SDK props type. -/
structure SamlProviderRest where
  samlRest : String
deriving DecidableEq

/-- External CDK type `cognito.UserPoolIdentityProviderGoogleProps`: a
required `userPool`, the legacy string `clientSecret`, the
`clientSecretValue` secret, and its remaining properties. -/
structure UserPoolIdentityProviderGoogleProps where
  userPool : UserPool
  clientSecret : Option String
  clientSecretValue : Option SecretValue
  rest : GoogleProviderRest
deriving DecidableEq

/-- External CDK type `cognito.UserPoolIdentityProviderAppleProps`. -/
structure UserPoolIdentityProviderAppleProps where
  userPool : UserPool
  rest : AppleProviderRest
deriving DecidableEq

/-- External CDK type `cognito.UserPoolIdentityProviderAmazonProps`. -/
structure UserPoolIdentityProviderAmazonProps where
  userPool : UserPool
  rest : AmazonProviderRest
deriving DecidableEq

/-- External CDK type `cognito.UserPoolIdentityProviderFacebookProps`. -/
structure UserPoolIdentityProviderFacebookProps where
  userPool : UserPool
  rest : FacebookProviderRest
deriving DecidableEq

/-- External CDK type `cognito.UserPoolIdentityProviderOidcProps`. -/
structure UserPoolIdentityProviderOidcProps where
  userPool : UserPool
  rest : OidcProviderRest
deriving DecidableEq

/-- External CDK type `cognito.UserPoolIdentityProviderSamlProps`. -/
structure UserPoolIdentityProviderSamlProps where
  userPool : UserPool
  rest : SamlProviderRest
deriving DecidableEq

/-- `GoogleProviderProps = Omit<GoogleSdkProps, 'userPool' | 'clientSecretValue'
| 'clientSecret'> & { clientSecret?: SecretValue }`: the kept SDK properties
plus the replacement `clientSecret` of type `SecretValue`. -/
structure GoogleProviderProps where
  rest : GoogleProviderRest
  clientSecret : Option SecretValue
deriving DecidableEq

/-- `AppleProviderProps = Omit<AppleSdkProps, 'userPool'>`. -/
structure AppleProviderProps where
  rest : AppleProviderRest
deriving DecidableEq

/-- `AmazonProviderProps = Omit<AmazonSdkProps, 'userPool'>`. -/
structure AmazonProviderProps where
  rest : AmazonProviderRest
deriving DecidableEq

/-- `FacebookProviderProps = Omit<FacebookSdkProps, 'userPool'>`. -/
structure FacebookProviderProps where
  rest : FacebookProviderRest
deriving DecidableEq

/-- `OidcProviderProps = Omit<OidcSdkProps, 'userPool'>`. -/
structure OidcProviderProps where
  rest : OidcProviderRest
deriving DecidableEq

/-- `SamlProviderProps = Omit<SamlSdkProps, 'userPool'>`. -/
structure SamlProviderProps where
  rest : SamlProviderRest
deriving DecidableEq

/-- The `Omit<…, 'userPool' | 'clientSecretValue' | 'clientSecret'>` part of
`GoogleProviderProps`, applied to an SDK props value: keeps every property
except the three omitted keys, with the new `clientSecret` supplied
separately by the intersection. -/
def googleProviderPropsOf (p : UserPoolIdentityProviderGoogleProps)
    (newClientSecret : Option SecretValue) : GoogleProviderProps :=
  ⟨p.rest, newClientSecret⟩

/-- `Omit<…, 'userPool'>` applied to an Apple SDK props value. -/
def appleProviderPropsOf (p : UserPoolIdentityProviderAppleProps) :
    AppleProviderProps :=
  ⟨p.rest⟩

/-- `Omit<…, 'userPool'>` applied to an Amazon SDK props value. -/
def amazonProviderPropsOf (p : UserPoolIdentityProviderAmazonProps) :
    AmazonProviderProps :=
  ⟨p.rest⟩

/-- `Omit<…, 'userPool'>` applied to a Facebook SDK props value. -/
def facebookProviderPropsOf (p : UserPoolIdentityProviderFacebookProps) :
    FacebookProviderProps :=
  ⟨p.rest⟩

/-- `Omit<…, 'userPool'>` applied to an OIDC SDK props value. -/
def oidcProviderPropsOf (p : UserPoolIdentityProviderOidcProps) :
    OidcProviderProps :=
  ⟨p.rest⟩

/-- `Omit<…, 'userPool'>` applied to a SAML SDK props value. -/
def samlProviderPropsOf (p : UserPoolIdentityProviderSamlProps) :
    SamlProviderProps :=
  ⟨p.rest⟩

/-- Carrier of `ExternalProviderOptions`: six optional per-provider bundles
plus the shared `scopes`, `callbackUrls` and `logoutUrls` properties. -/
structure ExternalProviderOptions where
  google : Option GoogleProviderProps
  facebook : Option FacebookProviderProps
  loginWithAmazon : Option AmazonProviderProps
  signInWithApple : Option AppleProviderProps
  oidc : Option OidcProviderProps
  saml : Option SamlProviderProps
  scopes : Option (List OAuthScope)
  callbackUrls : Option (List String)
  logoutUrls : Option (List String)
deriving DecidableEq

/-- Membership in `ExternalProviderOptions`: every property is optional and
the provider bundles are plain records, so every object qualifies. -/
def isExternalProviderOptions (_v : ExternalProviderOptions) : Bool :=
  true

/-- Number of per-provider bundles present in an `ExternalProviderOptions`
object. -/
def providerBundleCount (v : ExternalProviderOptions) : Nat :=
  [v.google.isSome, v.facebook.isSome, v.loginWithAmazon.isSome,
    v.signInWithApple.isSome, v.oidc.isSome, v.saml.isSome].count true

/-- Carrier of `ExternalProviderProps = { externalProviders?: ExternalProviderOptions }`. -/
structure ExternalProviderProps where
  externalProviders : Option ExternalProviderOptions
deriving DecidableEq

/-- Membership in `ExternalProviderProps`: its only property is optional. -/
def isExternalProviderProps (v : ExternalProviderProps) : Bool :=
  optValid isExternalProviderOptions v.externalProviders

/-! ### Top-level AuthProps -/

/-- Carrier of the intersection `BasicLoginOptions & ExternalProviderProps`,
the type of the `loginWith` property of `AuthProps`. -/
structure LoginWith where
  email : Option EmailLogin
  phone : Option PhoneNumberLogin
  externalProviders : Option ExternalProviderOptions

/-- Projection of a `LoginWith` object onto its `BasicLoginOptions` part. -/
def LoginWith.basic (v : LoginWith) : BasicLoginOptions :=
  ⟨v.email, v.phone⟩

/-- Projection of a `LoginWith` object onto its `ExternalProviderProps` part. -/
def LoginWith.external (v : LoginWith) : ExternalProviderProps :=
  ⟨v.externalProviders⟩

/-- Membership in `BasicLoginOptions & ExternalProviderProps`: the
conjunction of the two membership predicates. -/
def isLoginWith (v : LoginWith) : Bool :=
  isBasicLoginOptions v.basic && isExternalProviderProps v.external

/-- Carrier of `AuthProps`: the required `loginWith` plus the optional
`userAttributes`, `multifactor`, `accountRecovery` and
`outputStorageStrategy` properties. -/
structure AuthProps where
  loginWith : Option LoginWith
  userAttributes : Option StandardAttributes
  multifactor : Option MFA
  accountRecovery : Option AccountRecovery
  outputStorageStrategy : Option BackendOutputStorageStrategy

/-- Membership in `AuthProps`: `loginWith` is required and must satisfy the
intersection type; the other four properties are optional, with `multifactor`
required to satisfy `MFA` when present. -/
def isAuthProps (a : AuthProps) : Bool :=
  a.loginWith.isSome && optValid isLoginWith a.loginWith
    && optValid isMFA a.multifactor

/-! ### The api-extractor entry file

The second source file consists of a comment and two `export * from`
statements.  A module-level statement is modelled by an inductive covering
the statement forms a TypeScript module file can contain, and the file by
the list of its statements in order. -/

/-- A top-level statement of a TypeScript module file. -/
inductive ModuleStatement where
  | exportAllFrom (path : String) : ModuleStatement
  | typeDeclaration (name : String) : ModuleStatement
  | valueDeclaration (name : String) : ModuleStatement
deriving DecidableEq

/-- Does this statement merely re-export another module? -/
def ModuleStatement.isReexport : ModuleStatement → Bool
  | .exportAllFrom _ => true
  | _ => false

/-- The statements of the api-extractor entry file, in order: it re-exports
the conversation module and then the conversation lambda submodule. -/
def apiExtractorEntryStatements : List ModuleStatement :=
  [.exportAllFrom "./conversation/index.js",
    .exportAllFrom "./conversation/lambda/index.js"]

/-! ### Concrete configuration values used by the theorems -/

/-- The external-provider options object with every property absent. -/
def emptyExternalProviderOptions : ExternalProviderOptions :=
  ⟨none, none, none, none, none, none, none, none, none⟩

/-- An external-provider options object configuring all six providers. -/
def allSixProviders : ExternalProviderOptions :=
  ⟨some ⟨⟨"google"⟩, none⟩, some ⟨⟨"facebook"⟩⟩, some ⟨⟨"amazon"⟩⟩,
    some ⟨⟨"apple"⟩⟩, some ⟨⟨"oidc"⟩⟩, some ⟨⟨"saml"⟩⟩, none, none, none⟩

/-- A sample SMS message template. -/
def demoSmsMessage : String → String :=
  fun code => String.append "Your authentication code is " code

/-- An MFA object whose sms factor carries a message template. -/
def mfaWithSmsTemplate : MFA :=
  ⟨some "REQUIRED", some true, some (.asSettings ⟨some demoSmsMessage⟩)⟩

/-- An AuthProps object with only the required `loginWith` property. -/
def minimalAuthProps : AuthProps :=
  ⟨some ⟨some (.asBool true), none, none⟩, none, none, none, none⟩

/-- An AuthProps object with all five properties present. -/
def fullAuthProps : AuthProps :=
  ⟨some ⟨some (.asBool true), some (.asBool true), some allSixProviders⟩,
    some ⟨"email"⟩, some ⟨some "OPTIONAL", some true, some (.asBool true)⟩,
    some ⟨"EMAIL_ONLY"⟩, some ⟨"default"⟩⟩

/-! ### Claim theorems -/

/-- C1 counterexample: the configuration supplying neither login method is
rejected by the declared `BasicLoginOptions` union itself, contradicting the
claim that no shape in this excerpt performs that rejection. -/
theorem basicLoginOptions_shape_rejects_neither :
    isBasicLoginOptions ⟨none, none⟩ = false := by
  decide

/-- C1 amended: the email and phone settings are each individually optional
(each may be absent when the other is present), but the `BasicLoginOptions`
union itself rejects a configuration that supplies neither login method, so
that rejection is enforced by a declared shape, not left to the external
construct implementation. -/
theorem basicLoginOptions_each_optional_but_union_enforces :
    (∃ v : BasicLoginOptions, isBasicLoginOptions v = true ∧ v.email = none) ∧
    (∃ v : BasicLoginOptions, isBasicLoginOptions v = true ∧ v.phone = none) ∧
    (∀ v : BasicLoginOptions,
      v.email = none → v.phone = none → isBasicLoginOptions v = false) := by
  refine ⟨⟨⟨none, some (.asBool true)⟩, by decide, rfl⟩,
    ⟨⟨some (.asBool true), none⟩, by decide, rfl⟩, ?_⟩
  intro v h1 h2
  simp [isBasicLoginOptions, optValid, h1, h2]

/-- C1 witness: the amended theorem applied to the concrete object with both
properties absent. -/
theorem basicLoginOptions_each_optional_but_union_enforces_witness :
    isBasicLoginOptions ⟨none, none⟩ = false :=
  basicLoginOptions_each_optional_but_union_enforces.2.2 ⟨none, none⟩ rfl rfl

/-- C2: every member of `BasicLoginOptions` defines at least one of the
email or phone properties; an object with neither present is not a member of
the type, so the at-least-one-login-method constraint is enforced by the
declared shape. -/
theorem basicLoginOptions_requires_login_method :
    ∀ v : BasicLoginOptions, isBasicLoginOptions v = true →
      v.email.isSome = true ∨ v.phone.isSome = true := by
  intro v h
  simp only [isBasicLoginOptions, Bool.or_eq_true, Bool.and_eq_true] at h
  rcases h with ⟨⟨h1, _⟩, _⟩ | ⟨⟨h1, _⟩, _⟩
  · exact Or.inl h1
  · exact Or.inr h1

/-- C2 witness: the theorem applied to the concrete email-only member. -/
theorem basicLoginOptions_requires_login_method_witness :
    (⟨some (.asBool true), none⟩ : BasicLoginOptions).email.isSome = true ∨
    (⟨some (.asBool true), none⟩ : BasicLoginOptions).phone.isSome = true :=
  basicLoginOptions_requires_login_method ⟨some (.asBool true), none⟩ (by decide)

/-- C3: `AuthProps` aggregates exactly the login configuration (basic login
methods with external providers), the user-attribute requirements, the
multi-factor configuration, the account-recovery policy, and the
output-storage strategy hook: two values agreeing on these five properties
are equal (so there is no other field), `loginWith` is the one required
property and must satisfy both halves of its intersection type, and all
five properties are realizable. -/
theorem authProps_aggregates_exactly_five_fields :
    (∀ a b : AuthProps, a.loginWith = b.loginWith →
      a.userAttributes = b.userAttributes → a.multifactor = b.multifactor →
      a.accountRecovery = b.accountRecovery →
      a.outputStorageStrategy = b.outputStorageStrategy → a = b) ∧
    (∀ a : AuthProps, isAuthProps a = true → a.loginWith.isSome = true) ∧
    (∀ a : AuthProps, ∀ lw : LoginWith, isAuthProps a = true →
      a.loginWith = some lw →
      isBasicLoginOptions lw.basic = true ∧
        isExternalProviderProps lw.external = true) ∧
    (isAuthProps fullAuthProps = true ∧
      fullAuthProps.loginWith.isSome = true ∧
      fullAuthProps.userAttributes.isSome = true ∧
      fullAuthProps.multifactor.isSome = true ∧
      fullAuthProps.accountRecovery.isSome = true ∧
      fullAuthProps.outputStorageStrategy.isSome = true) := by
  refine ⟨?_, ?_, ?_, by decide⟩
  · intro a b h1 h2 h3 h4 h5
    cases a
    cases b
    simp_all
  · intro a h
    simp only [isAuthProps, Bool.and_eq_true] at h
    exact h.1.1
  · intro a lw h hlw
    simp only [isAuthProps, hlw, optValid, Bool.and_eq_true] at h
    have hl : isLoginWith lw = true := h.1.2
    simp only [isLoginWith, Bool.and_eq_true] at hl
    exact hl

/-- C3 witness: the theorem applied at concrete AuthProps values. -/
theorem authProps_aggregates_exactly_five_fields_witness :
    minimalAuthProps = minimalAuthProps ∧
    fullAuthProps.loginWith.isSome = true :=
  ⟨authProps_aggregates_exactly_five_fields.1 minimalAuthProps minimalAuthProps
      rfl rfl rfl rfl rfl,
    authProps_aggregates_exactly_five_fields.2.1 fullAuthProps (by decide)⟩

/-- C4: an `MFA` member's enforcement mode is exactly one of the three
literals OFF, OPTIONAL, REQUIRED (and each of the three is attainable), the
totp and sms factor enablement properties are both required, and the sms
factor may carry a message template. -/
theorem mfa_enforcement_and_factors :
    (∀ m : MFA, isMFA m = true →
      m.enforcementType = some "OFF" ∨ m.enforcementType = some "OPTIONAL" ∨
        m.enforcementType = some "REQUIRED") ∧
    (∀ m : MFA, isMFA m = true → m.totp.isSome = true ∧ m.sms.isSome = true) ∧
    (isMFA ⟨some "OFF", some false, some (.asBool false)⟩ = true) ∧
    (isMFA ⟨some "OPTIONAL", some true, some (.asBool true)⟩ = true) ∧
    (isMFA ⟨some "REQUIRED", some true, some (.asBool true)⟩ = true) ∧
    (isMFA mfaWithSmsTemplate = true ∧
      mfaWithSmsTemplate.sms = some (.asSettings ⟨some demoSmsMessage⟩)) := by
  refine ⟨?_, ?_, by decide, by decide, by decide, by decide, rfl⟩
  · intro m h
    rcases m with ⟨et, t, s⟩
    rcases et with _ | v
    · simp [isMFA] at h
    · simp only [isMFA, optValid, Bool.and_eq_true, Bool.or_eq_true,
        beq_iff_eq] at h
      rcases h.1.2 with (h1 | h1) | h1 <;> simp [h1]
  · intro m h
    simp only [isMFA, isMFASettings, MFA.settings, Bool.and_eq_true] at h
    exact ⟨h.2.1.1, h.2.1.2⟩

/-- C4 witness: the theorem applied at a concrete MFA member. -/
theorem mfa_enforcement_and_factors_witness :
    ((⟨some "OFF", some false, some (.asBool false)⟩ : MFA).enforcementType
        = some "OFF" ∨
      (⟨some "OFF", some false, some (.asBool false)⟩ : MFA).enforcementType
        = some "OPTIONAL" ∨
      (⟨some "OFF", some false, some (.asBool false)⟩ : MFA).enforcementType
        = some "REQUIRED") ∧
    mfaWithSmsTemplate.totp.isSome = true ∧
      mfaWithSmsTemplate.sms.isSome = true :=
  ⟨mfa_enforcement_and_factors.1 ⟨some "OFF", some false, some (.asBool false)⟩
      (by decide),
    mfa_enforcement_and_factors.2.1 mfaWithSmsTemplate (by decide)⟩

/-- C5 counterexample: `ExternalProviderOptions` admits a member configuring
six pairwise-distinct named identity providers simultaneously, so the type
offers bundles for six named providers, not five. -/
theorem externalProviderOptions_offers_six_not_five :
    isExternalProviderOptions allSixProviders = true ∧
    providerBundleCount allSixProviders = 6 ∧
    providerBundleCount allSixProviders ≠ 5 := by
  refine ⟨by decide, by decide, by decide⟩

/-- C5 amended: `ExternalProviderOptions` offers optional per-provider
bundles for exactly six named identity providers (google, facebook,
loginWithAmazon, signInWithApple, oidc, saml) plus the shared OAuth scope
list and the callback and logout redirect-URL lists, and nothing else: two
members agreeing on these nine properties are equal, every provider bundle
is optional, and all six can be present at once. -/
theorem externalProviderOptions_six_providers_plus_shared :
    (∀ a b : ExternalProviderOptions, a.google = b.google →
      a.facebook = b.facebook → a.loginWithAmazon = b.loginWithAmazon →
      a.signInWithApple = b.signInWithApple → a.oidc = b.oidc →
      a.saml = b.saml → a.scopes = b.scopes →
      a.callbackUrls = b.callbackUrls → a.logoutUrls = b.logoutUrls →
      a = b) ∧
    (isExternalProviderOptions allSixProviders = true ∧
      providerBundleCount allSixProviders = 6) ∧
    (isExternalProviderOptions emptyExternalProviderOptions = true ∧
      providerBundleCount emptyExternalProviderOptions = 0) ∧
    (∃ v : ExternalProviderOptions, isExternalProviderOptions v = true ∧
      v.scopes = some [⟨"email"⟩] ∧ v.callbackUrls = some ["https://cb"] ∧
      v.logoutUrls = some ["https://lo"]) := by
  refine ⟨?_, by decide, by decide,
    ⟨⟨none, none, none, none, none, none, some [⟨"email"⟩], some ["https://cb"],
      some ["https://lo"]⟩, by decide, rfl, rfl, rfl⟩⟩
  intro a b h1 h2 h3 h4 h5 h6 h7 h8 h9
  cases a
  cases b
  simp_all

/-- C5 witness: the amended theorem's extensionality applied at a concrete
member. -/
theorem externalProviderOptions_six_providers_plus_shared_witness :
    allSixProviders = allSixProviders :=
  externalProviderOptions_six_providers_plus_shared.1 allSixProviders
    allSixProviders rfl rfl rfl rfl rfl rfl rfl rfl rfl

/-- C6 counterexample: the boolean `false` is not an admissible value of
`EmailLogin` or of `PhoneNumberLogin`: both unions admit only the literal
`true`, not every boolean. -/
theorem login_false_literal_not_admissible :
    isEmailLogin (.asBool false) = false ∧
    isPhoneNumberLogin (.asBool false) = false := by
  decide

/-- C6 amended: each of `EmailLogin` and `PhoneNumberLogin` is either the
boolean literal `true` or a settings object customizing verification
messages: `true` is admissible, a valid settings object is admissible, and
`true` is the only admissible boolean (`false` is not a value of either
type). -/
theorem login_true_or_settings_only :
    (isEmailLogin (.asBool true) = true) ∧
    (isPhoneNumberLogin (.asBool true) = true) ∧
    (∀ b : Bool, isEmailLogin (.asBool b) = true → b = true) ∧
    (∀ b : Bool, isPhoneNumberLogin (.asBool b) = true → b = true) ∧
    (∀ s : EmailLoginSettings, isEmailLoginSettings s = true →
      isEmailLogin (.asSettings s) = true) ∧
    (∀ s : PhoneNumberLoginSettings,
      isPhoneNumberLogin (.asSettings s) = true) := by
  refine ⟨by decide, by decide, ?_, ?_, ?_, ?_⟩
  · intro b h
    simpa [isEmailLogin] using h
  · intro b h
    simpa [isPhoneNumberLogin] using h
  · intro s h
    exact h
  · intro s
    rfl

/-- C6 witness: the amended theorem applied at a concrete settings object. -/
theorem login_true_or_settings_only_witness :
    isEmailLogin (.asSettings ⟨none, none, none⟩) = true :=
  login_true_or_settings_only.2.2.2.2.1 ⟨none, none, none⟩ (by decide)

/-- C7 counterexample: not every declared configuration field is optional:
an `MFASettings` object lacking `totp` is rejected, and an `AuthProps`
object lacking `loginWith` is rejected. -/
theorem required_fields_exist_counterexample :
    isMFASettings ⟨none, some (.asBool true)⟩ = false ∧
    isAuthProps ⟨none, none, none, none, none⟩ = false := by
  decide

/-- C7 amended: most declared configuration fields are optional (all
properties of `EmailLoginSettings`, of the phone settings object, and of
`ExternalProviderOptions`, and every `AuthProps` property except
`loginWith`), but `loginWith` in `AuthProps`, `totp` and `sms` in
`MFASettings`, `enforcementType` in `MFA`, and `smsMessage` in the sms
settings object are required: their absence is rejected by the shapes. -/
theorem most_fields_optional_some_required :
    (isEmailLoginSettings ⟨none, none, none⟩ = true) ∧
    (isPhoneNumberLogin (.asSettings ⟨none⟩) = true) ∧
    (isExternalProviderOptions emptyExternalProviderOptions = true) ∧
    (isAuthProps minimalAuthProps = true ∧
      minimalAuthProps.userAttributes = none ∧
      minimalAuthProps.multifactor = none ∧
      minimalAuthProps.accountRecovery = none ∧
      minimalAuthProps.outputStorageStrategy = none) ∧
    (∀ a : AuthProps, isAuthProps a = true → a.loginWith.isSome = true) ∧
    (∀ m : MFASettings, isMFASettings m = true →
      m.totp.isSome = true ∧ m.sms.isSome = true) ∧
    (∀ m : MFA, isMFA m = true → m.enforcementType.isSome = true) ∧
    (∀ s : SmsMfaSettings, isSmsMfaValue (.asSettings s) = true →
      s.smsMessage.isSome = true) := by
  refine ⟨by decide, by decide, by decide,
    ⟨by decide, rfl, rfl, rfl, rfl⟩, ?_, ?_, ?_, ?_⟩
  · intro a h
    simp only [isAuthProps, Bool.and_eq_true] at h
    exact h.1.1
  · intro m h
    simp only [isMFASettings, Bool.and_eq_true] at h
    exact ⟨h.1.1, h.1.2⟩
  · intro m h
    simp only [isMFA, Bool.and_eq_true] at h
    exact h.1.1
  · intro s h
    simpa [isSmsMfaValue, isSmsMfaSettings] using h

/-- C7 witness: the amended theorem applied at concrete members. -/
theorem most_fields_optional_some_required_witness :
    minimalAuthProps.loginWith.isSome = true ∧
    mfaWithSmsTemplate.enforcementType.isSome = true :=
  ⟨most_fields_optional_some_required.2.2.2.2.1 minimalAuthProps (by decide),
    most_fields_optional_some_required.2.2.2.2.2.2.1 mfaWithSmsTemplate
      (by decide)⟩

/-- C8: the api-extractor entry file consists of exactly two statements,
the re-exports of the conversation module and of its lambda submodule, and
every statement in the file is a re-export (no type, value or logic
declaration of its own). -/
theorem apiExtractorEntry_reexports_two_submodules :
    apiExtractorEntryStatements =
      [.exportAllFrom "./conversation/index.js",
        .exportAllFrom "./conversation/lambda/index.js"] ∧
    apiExtractorEntryStatements.length = 2 ∧
    apiExtractorEntryStatements.all ModuleStatement.isReexport = true := by
  refine ⟨rfl, rfl, rfl⟩

/-- C9: in every `MFASettings` member whose sms factor is given as a
settings object, that object carries the `smsMessage` template; the
settings-object form without `smsMessage` is rejected. -/
theorem mfaSettings_sms_object_requires_message :
    (∀ m : MFASettings, isMFASettings m = true →
      ∀ s : SmsMfaSettings, m.sms = some (.asSettings s) →
        s.smsMessage.isSome = true) ∧
    isMFASettings ⟨some true, some (.asSettings ⟨none⟩)⟩ = false := by
  refine ⟨?_, by decide⟩
  intro m h s hs
  simp only [isMFASettings, hs, optValid, isSmsMfaValue, isSmsMfaSettings,
    Bool.and_eq_true] at h
  exact h.2

/-- C9 witness: the theorem applied at a concrete member whose sms factor is
a settings object. -/
theorem mfaSettings_sms_object_requires_message_witness :
    (⟨some demoSmsMessage⟩ : SmsMfaSettings).smsMessage.isSome = true :=
  mfaSettings_sms_object_requires_message.1
    ⟨some true, some (.asSettings ⟨some demoSmsMessage⟩)⟩ (by decide)
    ⟨some demoSmsMessage⟩ rfl

/-- C10: each per-provider props type is the SDK props type with the
`userPool` key removed: changing the SDK `userPool` value never changes the
resulting provider props (so no external-provider configuration value can
specify a user pool), every provider props value arises from some SDK props
value, and the Google props additionally drop the SDK `clientSecret` and
`clientSecretValue` keys in favour of a single optional `SecretValue`
`clientSecret` property. -/
theorem providerProps_omit_userPool :
    (∀ (p : UserPoolIdentityProviderGoogleProps) (u : UserPool)
        (c : Option String) (cv : Option SecretValue) (ns : Option SecretValue),
      googleProviderPropsOf ⟨u, c, cv, p.rest⟩ ns = googleProviderPropsOf p ns) ∧
    (∀ (p : UserPoolIdentityProviderAppleProps) (u : UserPool),
      appleProviderPropsOf ⟨u, p.rest⟩ = appleProviderPropsOf p) ∧
    (∀ (p : UserPoolIdentityProviderAmazonProps) (u : UserPool),
      amazonProviderPropsOf ⟨u, p.rest⟩ = amazonProviderPropsOf p) ∧
    (∀ (p : UserPoolIdentityProviderFacebookProps) (u : UserPool),
      facebookProviderPropsOf ⟨u, p.rest⟩ = facebookProviderPropsOf p) ∧
    (∀ (p : UserPoolIdentityProviderOidcProps) (u : UserPool),
      oidcProviderPropsOf ⟨u, p.rest⟩ = oidcProviderPropsOf p) ∧
    (∀ (p : UserPoolIdentityProviderSamlProps) (u : UserPool),
      samlProviderPropsOf ⟨u, p.rest⟩ = samlProviderPropsOf p) ∧
    (∀ q : GoogleProviderProps, ∃ p ns, googleProviderPropsOf p ns = q ∧
      q.clientSecret = ns) ∧
    (∀ q : AppleProviderProps, ∃ p, appleProviderPropsOf p = q) ∧
    (∀ q : AmazonProviderProps, ∃ p, amazonProviderPropsOf p = q) ∧
    (∀ q : FacebookProviderProps, ∃ p, facebookProviderPropsOf p = q) ∧
    (∀ q : OidcProviderProps, ∃ p, oidcProviderPropsOf p = q) ∧
    (∀ q : SamlProviderProps, ∃ p, samlProviderPropsOf p = q) ∧
    (∀ s : SecretValue, ∃ q : GoogleProviderProps, q.clientSecret = some s) := by
  refine ⟨fun p u c cv ns => rfl, fun p u => rfl, fun p u => rfl,
    fun p u => rfl, fun p u => rfl, fun p u => rfl, ?_, ?_, ?_, ?_, ?_, ?_, ?_⟩
  · intro q
    exact ⟨⟨⟨"pool"⟩, none, none, q.rest⟩, q.clientSecret, rfl, rfl⟩
  · intro q
    exact ⟨⟨⟨"pool"⟩, q.rest⟩, rfl⟩
  · intro q
    exact ⟨⟨⟨"pool"⟩, q.rest⟩, rfl⟩
  · intro q
    exact ⟨⟨⟨"pool"⟩, q.rest⟩, rfl⟩
  · intro q
    exact ⟨⟨⟨"pool"⟩, q.rest⟩, rfl⟩
  · intro q
    exact ⟨⟨⟨"pool"⟩, q.rest⟩, rfl⟩
  · intro s
    exact ⟨⟨⟨"google"⟩, some s⟩, rfl⟩

end AmplifyAuth
